/-
Verification of the conversation-history, provider-registry and
agent-factory subsystems of the wuchen-ai-agent-py repository.

Shallow embedding conventions:
* Python lists become Lean `List`s; dictionaries keyed by strings become
  either association lists (`List (String × _)`) or total functions with a
  default value, matching the get-or-insert-empty access pattern of the
  source.
* The network collaborators (chat model, retriever, Redis, MongoDB) are
  modeled by explicit state values and oracle functions supplied as
  parameters; the control flow around them is translated from the source.
* Machine-level concerns (timestamps, object identity) are modeled with
  `Nat` values where the source only compares or orders them.
-/
import Mathlib

/-! ## Messages

`langchain_core.messages`: the code constructs `SystemMessage`,
`HumanMessage` (user) and `AIMessage` (assistant) values and only ever
reads their `content`.  We model a message as its role plus content. -/

inductive ChatMsg : Type where
  | system (content : String)
  | human (content : String)
  | ai (content : String)
  deriving DecidableEq, Repr

/-- `history[-10:]` — the last `n` elements of a Python list. -/
def lastN (n : Nat) (l : List α) : List α :=
  l.drop (l.length - n)

/-! ## `src/web/agent/base_agent.py` — `BaseAgent`

The agent keeps `self.chat_history`, a dict from session id to a mutable
message list; `_get_session_history` (lines 50-62) returns the list for a
session, inserting an empty list on first access.  We model the dict as a
total function `String → List ChatMsg` whose default value is `[]`, which
is exactly the observable behavior of get-or-insert-empty.

The chat model and the retriever are external collaborators: we pass
`model : List ChatMsg → String` (content of `chat_model.invoke(messages)`),
`modelStream : List ChatMsg → List String` (the chunk contents produced by
`chat_model.stream(messages)`) and `retrieve : String → String` (the
already-formatted document context `_format_docs(retriever.invoke(query))`)
as oracles. -/

structure BaseAgentCfg where
  systemPrompt : String
  useRag : Bool
  /-- Oracle for `self._format_docs(self.retriever.invoke(query))`. -/
  retrieve : String → String

/-- The `self.chat_history` dict: session id to message log. -/
def BaseAgentHistory : Type := String → List ChatMsg

/-- A freshly constructed agent: `self.chat_history = {}`. -/
def initHistory : BaseAgentHistory := fun _ => []

/-- Message-list construction shared by `invoke` (lines 100-111) and
`stream` (lines 146-157): system prompt, last 10 history messages, an
optional RAG context message, then the current query. -/
def buildMessages (cfg : BaseAgentCfg) (history : List ChatMsg)
    (context query : String) : List ChatMsg :=
  [ChatMsg.system cfg.systemPrompt]
    ++ lastN 10 history
    ++ (if context ≠ "" then [ChatMsg.system ("参考以下上下文信息:\n" ++ context)] else [])
    ++ [ChatMsg.human query]

/-- `BaseAgent.invoke` (lines 76-120): read the session history, build the
prompt, call the model, then append the user message and the assistant
reply to the session history.  Returns the updated history dict and the
returned `response.content`. -/
def BaseAgent.invoke (cfg : BaseAgentCfg) (model : List ChatMsg → String)
    (st : BaseAgentHistory) (query : String) (sessionId : String) :
    BaseAgentHistory × String :=
  let history := st sessionId
  let context := if cfg.useRag then cfg.retrieve query else ""
  let messages := buildMessages cfg history context query
  let response := model messages
  (fun s => if s = sessionId
      then history ++ [ChatMsg.human query, ChatMsg.ai response]
      else st s,
   response)

/-- How far the consumer of `BaseAgent.stream` drove the generator:
`cancelled k` means the caller received `k` fragments and then abandoned
the stream (cancellation, or an exception thrown into / out of it) before
the generator ran to completion; `drained` means the caller exhausted the
generator, resuming it past the last `yield`. -/
inductive StreamOutcome : Type where
  | cancelled (k : Nat)
  | drained
  deriving DecidableEq, Repr

/-- `BaseAgent.stream` (lines 122-170): a generator that yields every
chunk content while accumulating `full_response`, and only after the last
chunk — when the consumer resumes it once more — appends the user message
and one assistant message carrying the accumulated response (lines
168-170).  If the consumer abandons the generator earlier, the code after
the `for` loop never executes, so the history is untouched.  Returns the
history dict after the run and the fragments the caller received. -/
def BaseAgent.stream (cfg : BaseAgentCfg) (modelStream : List ChatMsg → List String)
    (st : BaseAgentHistory) (query : String) (sessionId : String)
    (outcome : StreamOutcome) : BaseAgentHistory × List String :=
  let history := st sessionId
  let context := if cfg.useRag then cfg.retrieve query else ""
  let messages := buildMessages cfg history context query
  let chunks := modelStream messages
  match outcome with
  | StreamOutcome.cancelled k => (st, chunks.take k)
  | StreamOutcome.drained =>
      (fun s => if s = sessionId
          then history ++ [ChatMsg.human query, ChatMsg.ai (String.join chunks)]
          else st s,
       chunks)

/-- Run a sequence of sequential (non-overlapping) turns on one session,
i.e. fold `BaseAgent.invoke` over the queries. -/
def runTurns (cfg : BaseAgentCfg) (model : List ChatMsg → String)
    (st : BaseAgentHistory) (sessionId : String) (queries : List String) :
    BaseAgentHistory :=
  queries.foldl (fun s q => (BaseAgent.invoke cfg model s q sessionId).1) st

/-- The message log consisting of the given user queries interleaved with
the given assistant replies: user, assistant, user, assistant, … -/
def turnsList : List String → List String → List ChatMsg
  | q :: qs, r :: rs => ChatMsg.human q :: ChatMsg.ai r :: turnsList qs rs
  | _, _ => []

/-- A log alternates user-then-assistant pairwise. -/
def alternatesUserAi : List ChatMsg → Bool
  | [] => true
  | ChatMsg.human _ :: ChatMsg.ai _ :: rest => alternatesUserAi rest
  | _ => false

/-- Number of assistant (`AIMessage`) entries in a log. -/
def countAi (l : List ChatMsg) : Nat :=
  (l.filter fun m => match m with | ChatMsg.ai _ => true | _ => false).length

/-- Python truthiness of an optional string: `None` and the empty string
are falsy, any other string is truthy. -/
def pyTruthyStr (o : Option String) : Bool :=
  match o with
  | none => false
  | some s => s != ""

/-- Python `x or y` on optional-string-valued expressions. -/
def pyOr (a b : Option String) : Option String :=
  if pyTruthyStr a then a else b

/-- Python `f"{x}"` on an optional string (`None` renders as `"None"`). -/
def pyStr (o : Option String) : String :=
  match o with
  | some s => s
  | none => "None"

def exceptIsError : Except ε γ → Bool
  | Except.error _ => true
  | Except.ok _ => false

/-- Python `str.lower()`: per-character lowercasing.  (Stated on the
character list so that it evaluates inside the kernel.) -/
def pyLower (s : String) : String :=
  String.mk (s.data.map Char.toLower)

/-! ## `src/chat_memory/mongo_store.py` — `EnhancedMongoDBChatMessageHistory`

One MongoDB document per message (`add_message`, lines 138-163): session
id, user id, the serialized message payload, serialized metadata and a
timestamp.  We keep the payload type abstract (`α`): the read path maps
`json.loads` / `messages_from_dict` over the documents element-wise, which
does not affect which documents are returned or their order.  A collection
is a list of documents in `_id` (insertion) order; `find(...).sort("_id", 1)`
therefore returns matching documents in list order. -/

structure MongoDoc (α : Type) where
  sessionId : String
  userId : String
  history : α
  metadata : String
  timestamp : Nat
  deriving DecidableEq, Repr

/-- The documents `find` returns for the `(SessionId, UserId)` filter, in
`_id` order. -/
def matchingDocs (coll : List (MongoDoc α)) (sid uid : String) : List (MongoDoc α) :=
  coll.filter fun d => d.sessionId == sid && d.userId == uid

/-- The `messages` property (lines 102-136).  With no `history_size` it
returns all matching payloads in `_id` order; with `history_size = k` it
first counts the matching documents, skips `max(0, count - k)` (`Nat`
subtraction is exactly that `max`), and reads the rest in `_id` order. -/
def mongoMessages (coll : List (MongoDoc α)) (sid uid : String)
    (historySize : Option Nat) : List α :=
  match historySize with
  | none => (matchingDocs coll sid uid).map MongoDoc.history
  | some k =>
      let skipCount := (matchingDocs coll sid uid).length - k
      ((matchingDocs coll sid uid).drop skipCount).map MongoDoc.history

/-- `add_message` (lines 138-163): `insert_one` appends one document. -/
def mongoAddMessage (coll : List (MongoDoc α)) (sid uid : String)
    (payload : α) (meta : String) (ts : Nat) : List (MongoDoc α) :=
  coll ++ [⟨sid, uid, payload, meta, ts⟩]

/-- `clear` (lines 165-173): `delete_many` removes every document of the
`(SessionId, UserId)` key. -/
def mongoClear (coll : List (MongoDoc α)) (sid uid : String) : List (MongoDoc α) :=
  coll.filter fun d => !(d.sessionId == sid && d.userId == uid)

/-- The client handle the constructor ends up owning. -/
inductive MongoClientHandle : Type where
  | prebuilt (clientId : Nat)
  | connected (connStr : String)
  deriving DecidableEq, Repr

/-- `__init__` (lines 76-89).  `if client:` / `if connection_string:` are
Python truthiness tests, so an empty connection string counts as absent.
Constructing `MongoClient(connection_string)` is lazy and performs no I/O,
so the `except ConnectionFailure` branch cannot fire at construction time
and the happy path always yields a handle.  A pre-built client is
identified by an opaque `Nat`. -/
def mongoHistoryInit (connectionString : Option String) (client : Option Nat) :
    Except String MongoClientHandle :=
  match client with
  | some c =>
      if pyTruthyStr connectionString then
        Except.error "Must provide connection_string or client, not both"
      else Except.ok (MongoClientHandle.prebuilt c)
  | none =>
      if pyTruthyStr connectionString then
        Except.ok (MongoClientHandle.connected (pyStr connectionString))
      else Except.error "Either connection_string or client must be provided"

/-- The 25-message session of the bounded-read example: payloads tagged
1..25 in insertion order. -/
def mongoColl25 : List (MongoDoc Nat) :=
  (List.range 25).map fun i => ⟨"session-1", "user-1", i + 1, "meta", i⟩

/-! ## `src/chat_memory/chat_history.py` — `InMemoryChatHistory`

State is just the `self.messages` list. -/

def InMemoryChatHistory.addMessage (st : List ChatMsg) (m : ChatMsg) : List ChatMsg :=
  st ++ [m]

def InMemoryChatHistory.getMessages (st : List ChatMsg) : List ChatMsg :=
  st

def InMemoryChatHistory.clear (_st : List ChatMsg) : List ChatMsg :=
  []

/-! ## `RedisChatHistory` (chat_history.py, lines 117-208) and the backing
`MemoryStore` (src/test/test_memory_store.py)

`MemoryStore` writes one value per `(namespace, key)` pair into a Redis
store, where the namespace is `("memories", user_id)` and the value is a
dict `{"data": "Role: content"}`.  Each stored item carries a
server-assigned creation timestamp; we model timestamps as `Nat` (the code
only ever orders them).  The store is a list of entries; `store.put`
replaces the value at an existing `(user, key)` pair or appends a new
entry. -/

structure RedisEntry : Type where
  user : String
  key : String
  data : String
  createdAt : Nat
  deriving DecidableEq, Repr

/-- `store.list(("memories", user_id))`: every entry of the namespace. -/
def redisEntriesFor (store : List RedisEntry) (user : String) : List RedisEntry :=
  store.filter fun e => e.user == user

/-- `store.put(namespace, key, {"data": data})`. -/
def redisPut (store : List RedisEntry) (user key data : String) (now : Nat) :
    List RedisEntry :=
  if store.any fun e => e.user == user && e.key == key then
    store.map fun e =>
      if e.user == user && e.key == key then { e with data := data } else e
  else store ++ [⟨user, key, data, now⟩]

/-- `MemoryStore.save_message` data formatting (lines 77-83): the stored
value is `"User: …"`, `"AI: …"` or `"Type: …"` by message type. -/
def redisFormatData (messageType content : String) : String :=
  if pyLower messageType == "human" then "User: " ++ content
  else if pyLower messageType == "ai" then "AI: " ++ content
  else messageType.capitalize ++ ": " ++ content

def ChatMsg.content : ChatMsg → String
  | ChatMsg.system s => s
  | ChatMsg.human s => s
  | ChatMsg.ai s => s

/-- `RedisChatHistory.add_message` (lines 127-149): classify the message,
then `save_message(user_id, f"{session_id}_{message_type}", …)`. -/
def ChatMsg.messageType : ChatMsg → String
  | ChatMsg.human _ => "human"
  | ChatMsg.ai _ => "ai"
  | ChatMsg.system _ => "system"

structure RedisHandle : Type where
  userId : String
  sessionId : String
  deriving DecidableEq, Repr

def RedisChatHistory.addMessage (h : RedisHandle) (store : List RedisEntry)
    (m : ChatMsg) (now : Nat) : List RedisEntry :=
  redisPut store h.userId (h.sessionId ++ "_" ++ m.messageType)
    (redisFormatData m.messageType m.content) now

/-- Comparison used by `sorted(redis_messages, key=lambda x: x.get('created_at', ''))`. -/
def entryLE (a b : RedisEntry) : Prop :=
  a.createdAt ≤ b.createdAt

instance : DecidableRel entryLE := fun a b => Nat.decLe a.createdAt b.createdAt

instance : IsTotal RedisEntry entryLE :=
  ⟨fun a b => Nat.le_total a.createdAt b.createdAt⟩

instance : IsTrans RedisEntry entryLE :=
  ⟨fun _ _ _ hab hbc => Nat.le_trans hab hbc⟩

/-- The per-entry reconstruction of `RedisChatHistory.get_messages` (lines
190-199): only values with a `"User: "` or `"AI: "` prefix are turned back
into messages; everything else is skipped. -/
def parseRedisData (e : RedisEntry) : Option ChatMsg :=
  if e.data.startsWith "User: " then some (ChatMsg.human (e.data.drop 6))
  else if e.data.startsWith "AI: " then some (ChatMsg.ai (e.data.drop 4))
  else none

/-- `RedisChatHistory.get_messages` (lines 177-201): fetch every entry of
the *user* namespace (`memory_store.get_messages(self.user_id)` — the
session id is not consulted), sort by creation timestamp (Python `sorted`
is a stable comparison sort; `List.insertionSort` is the same function on
lists), and reconstruct the prefixed values. -/
def RedisChatHistory.getMessages (h : RedisHandle) (store : List RedisEntry) :
    List ChatMsg :=
  (List.insertionSort entryLE (redisEntriesFor store h.userId)).filterMap parseRedisData

/-- `RedisChatHistory.clear` (lines 203-208) calls
`memory_store.delete_messages(self.user_id)` with no session list, which
deletes every entry of the user namespace. -/
def RedisChatHistory.clear (h : RedisHandle) (store : List RedisEntry) :
    List RedisEntry :=
  store.filter fun e => !(e.user == h.userId)

/-! ## `src/web/agent/model_provider.py`

`OpenAIAdaptationProvider` carries class-level defaults
(`DEFAULT_BASE_URL`, `DEFAULT_MODEL`, `AVAILABLE_MODELS`) and an instance
config dict.  Config entries are modeled as `Option String`: `none` is an
absent key; Python `None` and `""` values are collapsed into `none` as
well, since every consumer tests only truthiness or formats the value.
The float `temperature` default is not modeled (no claim observes it). -/

structure ChatModelSpec : Type where
  model : String
  apiKey : Option String
  baseUrl : Option String
  maxTokens : Nat
  deriving DecidableEq, Repr

structure ProviderCfg : Type where
  apiKey : Option String
  baseUrl : Option String
  model : Option String
  maxTokens : Option Nat
  deriving DecidableEq, Repr

structure AIProvider : Type where
  defaultBaseUrl : Option String
  defaultModel : Option String
  availableModels : List String
  cfg : ProviderCfg
  deriving DecidableEq, Repr

/-- `OpenAIAdaptationProvider.get_chat_model` (lines 60-76): when no model
name is passed, resolve `config.get('model', DEFAULT_MODEL) or
AVAILABLE_MODELS[0]`; raise if nothing resolves; otherwise build the
`ChatOpenAI` handle from the config with class defaults filled in. -/
def AIProvider.getChatModel (p : AIProvider) (modelName : Option String) :
    Except String ChatModelSpec :=
  let mn := if pyTruthyStr modelName then modelName
            else pyOr (pyOr p.cfg.model p.defaultModel) p.availableModels.head?
  if pyTruthyStr mn then
    Except.ok
      { model := pyStr mn
        apiKey := p.cfg.apiKey
        baseUrl := pyOr p.cfg.baseUrl p.defaultBaseUrl
        maxTokens := p.cfg.maxTokens.getD 1000 }
  else Except.error "未指定模型且没有默认模型可用"

/-- `validate_config` (lines 82-88): `bool(api_key and AVAILABLE_MODELS)`. -/
def AIProvider.validateConfig (p : AIProvider) : Bool :=
  pyTruthyStr p.cfg.apiKey && !p.availableModels.isEmpty

/-- Python dict assignment `d[k] = v` on an insertion-ordered dict
represented as an association list. -/
def dictInsert (l : List (String × β)) (k : String) (v : β) : List (String × β) :=
  if l.any fun p => p.1 == k then
    l.map fun p => if p.1 == k then (k, v) else p
  else l ++ [(k, v)]

structure ModelProviderManager : Type where
  providers : List (String × AIProvider)
  defaultProvider : Option String

def ModelProviderManager.empty : ModelProviderManager :=
  ⟨[], none⟩

/-- `register_provider` (lines 173-178): store the adapter; it becomes the
default if `is_default` is set or no default exists yet. -/
def ModelProviderManager.registerProvider (m : ModelProviderManager)
    (name : String) (provider : AIProvider) (isDefault : Bool) :
    ModelProviderManager :=
  { providers := dictInsert m.providers name provider
    defaultProvider :=
      if isDefault || m.defaultProvider.isNone then some name else m.defaultProvider }

/-- `get_provider` (lines 180-192): substitute the default name when the
given name is falsy; then a plain dict lookup — an unknown (truthy) name
returns `None` with no further fallback. -/
def ModelProviderManager.getProvider (m : ModelProviderManager)
    (name : Option String) : Option AIProvider :=
  let name' := if pyTruthyStr name then name else m.defaultProvider
  if pyTruthyStr name' then m.providers.lookup (pyStr name') else none

/-- `get_chat_model` (lines 194-201): raises `ValueError` when
`get_provider` found nothing, else delegates to the provider. -/
def ModelProviderManager.getChatModel (m : ModelProviderManager)
    (providerName modelName : Option String) : Except String ChatModelSpec :=
  match m.getProvider providerName with
  | none => Except.error ("未找到模型提供商: " ++ pyStr providerName)
  | some p => p.getChatModel modelName

/-- A valid provider used in the resolution counterexample and witnesses. -/
def provA : AIProvider :=
  { defaultBaseUrl := some "https://api.example.com/v1"
    defaultModel := some "m1"
    availableModels := ["m1", "m2"]
    cfg := { apiKey := some "key-a", baseUrl := none, model := none, maxTokens := none } }

/-- A manager holding exactly provider `"a"`, which is the default. -/
def mgrA : ModelProviderManager :=
  ModelProviderManager.empty.registerProvider "a" provA false

/-! ## `src/web/agent/agent_factory.py` — `AgentFactory`

`create_agent` (lines 89-128) caches instances in the class-level dict
`_instances` under the key `f"{agent_type}_{str(config)}"`.  We model the
stringified config as a `String` (values of arbitrary `repr` make a wide
range of strings reachable), the discovery result `_discover_agents()` as
the list of discovered type tags, a constructed agent instance as an
opaque object identity (`objId`, fresh per construction, standing for
`id()` in Python) plus the tag of the class it was built from. -/

structure AgentInstance : Type where
  objId : Nat
  cls : String
  deriving DecidableEq, Repr

structure FactoryState : Type where
  instances : List (String × AgentInstance)
  nextObjId : Nat
  deriving DecidableEq, Repr

def FactoryState.init : FactoryState :=
  ⟨[], 0⟩

/-- `config_key = f"{agent_type}_{str(config)}"` (line 104). -/
def configKey (agentType configStr : String) : String :=
  agentType ++ "_" ++ configStr

/-- Class resolution of `create_agent` (lines 108-117):
`agents.get(agent_type.lower())`, falling back to `agents.get('writing')`,
`None` when both are missing. -/
def resolveAgentClass (discovered : List String) (agentType : String) :
    Option String :=
  if discovered.contains (pyLower agentType) then some (pyLower agentType)
  else if discovered.contains "writing" then some "writing"
  else none

/-- `create_agent` (lines 89-128): cache hit returns the stored instance;
on a miss the class is resolved (`ValueError` when resolution fails) and
the new instance is stored under the key and returned. -/
def AgentFactory.createAgent (st : FactoryState) (discovered : List String)
    (agentType configStr : String) : Except String (AgentInstance × FactoryState) :=
  let key := configKey agentType configStr
  match st.instances.lookup key with
  | some inst => Except.ok (inst, st)
  | none =>
      match resolveAgentClass discovered agentType with
      | none => Except.error ("不支持的Agent类型: " ++ agentType)
      | some c =>
          let inst : AgentInstance := ⟨st.nextObjId, c⟩
          Except.ok (inst, ⟨st.instances ++ [(key, inst)], st.nextObjId + 1⟩)

/-- Cache-key collision inputs: the two (type, stringified-config) pairs
differ but concatenate to the same key.  Both stringified configs are
reachable in Python: `str({2: 2})` is the second, and the first is
`str({1: x})` for a value `x` whose `repr` is the text between the braces
— `config` values are typed `Any`. -/
def cexT1 : String := "x"
def cexC1 : String := "\x7b1: 1\x7d_\x7b2: 2\x7d"
def cexT2 : String := "x_\x7b1: 1\x7d"
def cexC2 : String := "\x7b2: 2\x7d"

/-! ## `src/web/agent/writing_agent.py` — error strings and the four call
shapes

Each public method wraps its whole body in `try/except Exception`; the
`except` arm of `chat` (line 211), `stream_chat` (line 258) and `achat`
(line 300) uses a literal ending in the ideographic full stop U+3002,
while the `astream_chat` arm (line 347) ends in an ASCII period.  A turn
is modeled by its outcome: `some answer` for success of the non-streaming
shapes, and for the streaming shapes the list of content fragments the
underlying chain produced (already reduced from the chunk dicts, so the
`if content:` guard is the non-empty filter) together with whether the
chain raised before completing. -/

def WritingAgent.chatErrorReply : String := "抱歉，我在处理您的问题时遇到了错误。"

def WritingAgent.streamChatErrorReply : String := "抱歉，我在处理您的问题时遇到了错误。"

def WritingAgent.achatErrorReply : String := "抱歉，我在处理您的问题时遇到了错误。"

def WritingAgent.astreamChatErrorReply : String := "抱歉，我在处理您的问题时遇到了错误."

/-- `WritingAgent.chat` (lines 171-211): the answer on success, the fixed
apology on any exception. -/
def WritingAgent.chat (turn : Option String) : String :=
  match turn with
  | some answer => answer
  | none => WritingAgent.chatErrorReply

/-- `WritingAgent.achat` (lines 260-300). -/
def WritingAgent.achat (turn : Option String) : String :=
  match turn with
  | some answer => answer
  | none => WritingAgent.achatErrorReply

/-- `WritingAgent.stream_chat` (lines 213-258): yield each non-empty
fragment; if the underlying stream raises, the `except` arm yields the
apology as the final fragment. -/
def WritingAgent.streamChat (fragments : List String) (raised : Bool) :
    List String :=
  fragments.filter (fun c => c != "")
    ++ (if raised then [WritingAgent.streamChatErrorReply] else [])

/-- `WritingAgent.astream_chat` (lines 302-347). -/
def WritingAgent.astreamChat (fragments : List String) (raised : Bool) :
    List String :=
  fragments.filter (fun c => c != "")
    ++ (if raised then [WritingAgent.astreamChatErrorReply] else [])

theorem turnsList_length (qs rs : List String) (h : qs.length = rs.length) :
    (turnsList qs rs).length = 2 * qs.length := by
  induction qs generalizing rs with
  | nil => simp [turnsList]
  | cons q qs ih =>
    cases rs with
    | nil => simp at h
    | cons r rs =>
      simp only [List.length_cons, Nat.succ.injEq] at h
      simp [turnsList, ih rs h, Nat.mul_succ, Nat.mul_add]

theorem turnsList_alternates (qs rs : List String) (h : qs.length = rs.length) :
    alternatesUserAi (turnsList qs rs) = true := by
  induction qs generalizing rs with
  | nil => simp [turnsList, alternatesUserAi]
  | cons q qs ih =>
    cases rs with
    | nil => simp at h
    | cons r rs =>
      simp only [List.length_cons, Nat.succ.injEq] at h
      simpa [turnsList, alternatesUserAi] using ih rs h

theorem runTurns_appends (cfg : BaseAgentCfg) (model : List ChatMsg → String)
    (sessionId : String) (queries : List String) :
    ∀ st : BaseAgentHistory, ∃ rs : List String, rs.length = queries.length ∧
      runTurns cfg model st sessionId queries sessionId
        = st sessionId ++ turnsList queries rs := by
  induction queries with
  | nil => intro st; exact ⟨[], rfl, by simp [runTurns, turnsList]⟩
  | cons q qs ih =>
    intro st
    obtain ⟨rs, hlen, hrun⟩ := ih (BaseAgent.invoke cfg model st q sessionId).1
    refine ⟨(BaseAgent.invoke cfg model st q sessionId).2 :: rs, by simp [hlen], ?_⟩
    have hstep : (BaseAgent.invoke cfg model st q sessionId).1 sessionId
        = st sessionId ++ [ChatMsg.human q,
            ChatMsg.ai (BaseAgent.invoke cfg model st q sessionId).2] := by
      simp [BaseAgent.invoke]
    calc runTurns cfg model st sessionId (q :: qs) sessionId
        = runTurns cfg model (BaseAgent.invoke cfg model st q sessionId).1
            sessionId qs sessionId := by simp [runTurns]
      _ = (BaseAgent.invoke cfg model st q sessionId).1 sessionId
            ++ turnsList qs rs := hrun
      _ = st sessionId ++ turnsList (q :: qs)
            ((BaseAgent.invoke cfg model st q sessionId).2 :: rs) := by
          rw [hstep]; simp [turnsList]

/-- C1: for every sequence of N sequential turns on one session of a fresh
in-memory-history agent, the session history afterwards is exactly the 2N
messages user, assistant, user, assistant, … in issuance order, the user
messages being the queries in order. -/
theorem base_agent_sequential_turns_history (cfg : BaseAgentCfg)
    (model : List ChatMsg → String) (sessionId : String) (queries : List String) :
    ∃ rs : List String, rs.length = queries.length ∧
      runTurns cfg model initHistory sessionId queries sessionId
          = turnsList queries rs ∧
      (runTurns cfg model initHistory sessionId queries sessionId).length
          = 2 * queries.length ∧
      alternatesUserAi (runTurns cfg model initHistory sessionId queries sessionId)
          = true := by
  obtain ⟨rs, hlen, hrun⟩ := runTurns_appends cfg model sessionId queries initHistory
  have h0 : initHistory sessionId = [] := rfl
  rw [h0, List.nil_append] at hrun
  exact ⟨rs, hlen, hrun, by rw [hrun]; exact turnsList_length queries rs hlen.symm,
    by rw [hrun]; exact turnsList_alternates queries rs hlen.symm⟩

theorem countAi_append_turn (l : List ChatMsg) (q r : String) :
    countAi (l ++ [ChatMsg.human q, ChatMsg.ai r]) = countAi l + 1 := by
  simp [countAi, List.filter_append]

/-- C3: a streamed turn abandoned before the generator is drained persists
nothing — the history dict is unchanged, so it still holds exactly the
messages of the prior completed turns; a drained streamed turn appends to
the session exactly one assistant message (the assistant count rises by
one) whose content is the concatenation of all yielded fragments. -/
theorem base_agent_stream_turn_persistence
    (cfg : BaseAgentCfg) (modelStream : List ChatMsg → List String)
    (st : BaseAgentHistory) (query sessionId : String) (k : Nat) :
    (BaseAgent.stream cfg modelStream st query sessionId (StreamOutcome.cancelled k)).1 = st
    ∧ ((BaseAgent.stream cfg modelStream st query sessionId StreamOutcome.drained).1 sessionId
        = st sessionId ++ [ChatMsg.human query,
            ChatMsg.ai (String.join
              (BaseAgent.stream cfg modelStream st query sessionId StreamOutcome.drained).2)])
    ∧ (∀ s : String,
        s ≠ sessionId →
          (BaseAgent.stream cfg modelStream st query sessionId StreamOutcome.drained).1 s = st s)
    ∧ countAi ((BaseAgent.stream cfg modelStream st query sessionId StreamOutcome.drained).1
          sessionId)
        = countAi (st sessionId) + 1 := by
  refine ⟨rfl, by simp [BaseAgent.stream], ?_, ?_⟩
  · intro s hs
    simp [BaseAgent.stream, hs]
  · have h : (BaseAgent.stream cfg modelStream st query sessionId StreamOutcome.drained).1
        sessionId
        = st sessionId ++ [ChatMsg.human query,
            ChatMsg.ai (String.join
              (BaseAgent.stream cfg modelStream st query sessionId StreamOutcome.drained).2)] := by
      simp [BaseAgent.stream]
    rw [h, countAi_append_turn]

/-- C2: the size-bounded read returns exactly the last `min(k, n)` payloads
of the `n`-message log in original relative order — it is the suffix left
after dropping `max(0, n - k)` — and on the concrete 25-message session
tagged 1..25 with limit 10 it returns `[16, …, 25]`. -/
theorem mongo_bounded_read :
    (∀ (α : Type) (coll : List (MongoDoc α)) (sid uid : String) (k : Nat),
      mongoMessages coll sid uid (some k)
          = ((matchingDocs coll sid uid).map MongoDoc.history).drop
              ((matchingDocs coll sid uid).length - k)
      ∧ (mongoMessages coll sid uid (some k)).length
          = min k (matchingDocs coll sid uid).length
      ∧ ((matchingDocs coll sid uid).map MongoDoc.history).take
            ((matchingDocs coll sid uid).length - k)
          ++ mongoMessages coll sid uid (some k)
          = mongoMessages coll sid uid none)
    ∧ mongoMessages mongoColl25 "session-1" "user-1" (some 10)
        = [16, 17, 18, 19, 20, 21, 22, 23, 24, 25] := by
  constructor
  · intro α coll sid uid k
    refine ⟨?_, ?_, ?_⟩
    · simp [mongoMessages, List.map_drop]
    · simp only [mongoMessages, List.length_map, List.length_drop]
      omega
    · simp only [mongoMessages, List.map_drop]
      exact List.take_append_drop _ _
  · decide

/-- C7: construction of the document-backed history fails exactly when the
connection string and the pre-built client are both supplied or both
absent (Python truthiness: an empty connection string counts as absent);
with exactly one of the two present it succeeds. -/
theorem mongo_init_connect_error :
    ∀ (connectionString : Option String) (client : Option Nat),
      exceptIsError (mongoHistoryInit connectionString client)
        = ((pyTruthyStr connectionString && client.isSome)
            || (!pyTruthyStr connectionString && !client.isSome)) := by
  intro cs cl
  cases cl <;> cases h : pyTruthyStr cs <;>
    simp [mongoHistoryInit, exceptIsError, h]

theorem filter_not_filter (l : List γ) (p : γ → Bool) :
    (l.filter fun a => !(p a)).filter p = [] := by
  induction l with
  | nil => rfl
  | cons a l ih =>
    by_cases h : p a = true
    · simp [List.filter_cons, h, ih]
    · simp only [Bool.not_eq_true] at h
      simp [List.filter_cons, h, ih]

theorem filter_not_idem (l : List γ) (p : γ → Bool) :
    ((l.filter fun a => !(p a)).filter fun a => !(p a))
      = l.filter fun a => !(p a) := by
  induction l with
  | nil => rfl
  | cons a l ih =>
    by_cases h : p a = true
    · simp [List.filter_cons, h, ih]
    · simp only [Bool.not_eq_true] at h
      simp [List.filter_cons, h, ih]

theorem filter_not_eq_self_of_none (l : List γ) (p : γ → Bool)
    (h : l.filter p = []) : (l.filter fun a => !(p a)) = l := by
  induction l with
  | nil => rfl
  | cons a l ih =>
    by_cases hp : p a = true
    · simp [List.filter_cons, hp] at h
    · simp only [Bool.not_eq_true] at hp
      simp only [List.filter_cons, hp] at h
      simp [List.filter_cons, hp, ih h]

/-- C8: for every `(user_id, session_id)` key and every HistoryStore
variant, clear is total (never an error), a read after clear is empty,
clearing twice equals clearing once, and clearing a key that holds no
messages leaves the state untouched. -/
theorem clear_idempotent_all_variants :
    (∀ st : List ChatMsg,
      InMemoryChatHistory.getMessages (InMemoryChatHistory.clear st) = []
      ∧ InMemoryChatHistory.clear (InMemoryChatHistory.clear st)
          = InMemoryChatHistory.clear st)
    ∧ (∀ (α : Type) (coll : List (MongoDoc α)) (sid uid : String),
        mongoMessages (mongoClear coll sid uid) sid uid none = []
        ∧ mongoClear (mongoClear coll sid uid) sid uid = mongoClear coll sid uid
        ∧ (matchingDocs coll sid uid = [] → mongoClear coll sid uid = coll))
    ∧ (∀ (store : List RedisEntry) (h : RedisHandle),
        RedisChatHistory.getMessages h (RedisChatHistory.clear h store) = []
        ∧ RedisChatHistory.clear h (RedisChatHistory.clear h store)
            = RedisChatHistory.clear h store
        ∧ (redisEntriesFor store h.userId = [] →
            RedisChatHistory.clear h store = store)) := by
  refine ⟨fun st => ⟨rfl, rfl⟩, ?_, ?_⟩
  · intro α coll sid uid
    refine ⟨?_, ?_, ?_⟩
    · have h := filter_not_filter coll
        (fun d => d.sessionId == sid && d.userId == uid)
      simp only [mongoMessages, matchingDocs, mongoClear]
      rw [h]
      rfl
    · exact filter_not_idem coll _
    · exact filter_not_eq_self_of_none coll _
  · intro store h
    refine ⟨?_, ?_, ?_⟩
    · have hnil := filter_not_filter store (fun e => e.user == h.userId)
      simp only [RedisChatHistory.getMessages, redisEntriesFor, RedisChatHistory.clear]
      rw [hnil]
      rfl
    · exact filter_not_idem store _
    · exact filter_not_eq_self_of_none store _

/-- C8 witness: the in-memory, document and cache variants at concrete
states — including a key that holds no messages, where clear is a no-op
and not an error. -/
theorem clear_idempotent_all_variants_witness :
    (InMemoryChatHistory.getMessages
        (InMemoryChatHistory.clear [ChatMsg.human "hi"]) = []
      ∧ InMemoryChatHistory.clear (InMemoryChatHistory.clear [ChatMsg.human "hi"])
          = InMemoryChatHistory.clear [ChatMsg.human "hi"])
    ∧ (matchingDocs ([⟨"s9", "u9", 7, "meta", 0⟩] : List (MongoDoc Nat)) "s1" "u1" = []
        ∧ mongoClear ([⟨"s9", "u9", 7, "meta", 0⟩] : List (MongoDoc Nat)) "s1" "u1"
            = [⟨"s9", "u9", 7, "meta", 0⟩])
    ∧ (redisEntriesFor [⟨"u9", "k", "User: hi", 0⟩] "u1" = []
        ∧ RedisChatHistory.clear ⟨"u1", "s1"⟩ [⟨"u9", "k", "User: hi", 0⟩]
            = [⟨"u9", "k", "User: hi", 0⟩]) := by
  refine ⟨clear_idempotent_all_variants.1 [ChatMsg.human "hi"], ⟨?_, ?_⟩, ⟨?_, ?_⟩⟩
  · decide
  · exact (clear_idempotent_all_variants.2.1 Nat
      [⟨"s9", "u9", 7, "meta", 0⟩] "s1" "u1").2.2 (by decide)
  · decide
  · exact (clear_idempotent_all_variants.2.2
      [⟨"u9", "k", "User: hi", 0⟩] ⟨"u1", "s1"⟩).2.2 (by decide)

/-- C10: the cache-backed read path is keyed by the user id alone — two
handles with the same user and different sessions reconstruct identical
lists — and the result is obtained from some timestamp-sorted arrangement
of the user's stored entries, keeping exactly the values that begin with
`"User: "` or `"AI: "`. -/
theorem redis_read_keyed_by_user :
    ∀ (store : List RedisEntry) (u s1 s2 : String),
      RedisChatHistory.getMessages ⟨u, s1⟩ store
          = RedisChatHistory.getMessages ⟨u, s2⟩ store
      ∧ (∃ es : List RedisEntry,
            es.Perm (redisEntriesFor store u)
            ∧ es.Sorted entryLE
            ∧ RedisChatHistory.getMessages ⟨u, s1⟩ store
                = es.filterMap parseRedisData)
      ∧ ((RedisChatHistory.getMessages ⟨u, s1⟩ store).all fun m =>
            store.any fun e =>
              e.user == u
              && (e.data.startsWith "User: " || e.data.startsWith "AI: ")
              && parseRedisData e == some m) = true := by
  intro store u s1 s2
  refine ⟨rfl, ?_, ?_⟩
  · exact ⟨List.insertionSort entryLE (redisEntriesFor store u),
      List.perm_insertionSort entryLE _,
      List.sorted_insertionSort entryLE _, rfl⟩
  · rw [List.all_eq_true]
    intro m hm
    simp only [RedisChatHistory.getMessages, List.mem_filterMap] at hm
    obtain ⟨e, hesort, hparse⟩ := hm
    have hent : e ∈ redisEntriesFor store u :=
      (List.perm_insertionSort entryLE (redisEntriesFor store u)).mem_iff.mp hesort
    have hstore := (List.mem_filter.mp hent).1
    have huser := (List.mem_filter.mp hent).2
    rw [List.any_eq_true]
    refine ⟨e, hstore, ?_⟩
    have hpre : (e.data.startsWith "User: " || e.data.startsWith "AI: ") = true := by
      by_cases h1 : e.data.startsWith "User: " = true
      · simp [h1]
      · by_cases h2 : e.data.startsWith "AI: " = true
        · simp [h2]
        · simp only [Bool.not_eq_true] at h1 h2
          simp [parseRedisData, h1, h2] at hparse
    simp [huser, hpre, hparse]

/-- C4 counterexample: `mgrA` has a registered default provider `"a"`, and
resolution with the name omitted succeeds; yet resolving with the unknown
name `"b"` raises even though a default exists — the code substitutes the
default only for a falsy (omitted/empty) name, never for an unknown one. -/
theorem provider_unknown_name_no_fallback_cex :
    mgrA.defaultProvider = some "a"
    ∧ mgrA.providers.lookup "a" = some provA
    ∧ mgrA.getChatModel none none
        = Except.ok
            { model := "m1"
              apiKey := some "key-a"
              baseUrl := some "https://api.example.com/v1"
              maxTokens := 1000 }
    ∧ exceptIsError (mgrA.getChatModel (some "b") none) = true := by
  refine ⟨rfl, by decide, by rfl, rfl⟩

/-- C4 amended: with the provider name omitted, `get_chat_model` resolves
through the registered default; with a known truthy name it uses that
provider; with an unknown truthy name it raises regardless of any default;
with the name omitted and no default it raises. -/
theorem provider_resolution_amended (m : ModelProviderManager)
    (mn : Option String) :
    (∀ (d : String) (p : AIProvider),
      m.defaultProvider = some d → d ≠ "" → m.providers.lookup d = some p →
        m.getChatModel none mn = p.getChatModel mn)
    ∧ (∀ (n : String) (p : AIProvider),
        n ≠ "" → m.providers.lookup n = some p →
          m.getChatModel (some n) mn = p.getChatModel mn)
    ∧ (∀ n : String,
        n ≠ "" → m.providers.lookup n = none →
          exceptIsError (m.getChatModel (some n) mn) = true)
    ∧ (m.defaultProvider = none →
        exceptIsError (m.getChatModel none mn) = true) := by
  refine ⟨?_, ?_, ?_, ?_⟩
  · intro d p hd hne hlook
    simp [ModelProviderManager.getChatModel, ModelProviderManager.getProvider,
      pyTruthyStr, pyStr, hd, hne, hlook]
  · intro n p hne hlook
    simp [ModelProviderManager.getChatModel, ModelProviderManager.getProvider,
      pyTruthyStr, pyStr, hne, hlook]
  · intro n hne hlook
    simp [ModelProviderManager.getChatModel, ModelProviderManager.getProvider,
      pyTruthyStr, pyStr, hne, hlook, exceptIsError]
  · intro hd
    simp [ModelProviderManager.getChatModel, ModelProviderManager.getProvider,
      pyTruthyStr, pyStr, hd, exceptIsError]

/-- C4 witness: the amended resolution law applied to the concrete manager
`mgrA` (default `"a"`, unknown name `"b"`). -/
theorem provider_resolution_amended_witness :
    mgrA.getChatModel none none = provA.getChatModel none
    ∧ exceptIsError (mgrA.getChatModel (some "b") none) = true := by
  refine ⟨(provider_resolution_amended mgrA none).1 "a" provA (by decide)
      (by decide) (by decide),
    (provider_resolution_amended mgrA none).2.2.1 "b" (by decide) (by decide)⟩

theorem resolveAgentClass_isSome (discovered : List String)
    (hw : "writing" ∈ discovered) (t : String) :
    (resolveAgentClass discovered t).isSome = true := by
  by_cases h : pyLower t ∈ discovered
  · simp [resolveAgentClass, h]
  · simp [resolveAgentClass, h, hw]

theorem resolveAgentClass_unknown (discovered : List String) (t : String)
    (h : pyLower t ∉ discovered) (hw : "writing" ∈ discovered) :
    resolveAgentClass discovered t = some "writing" := by
  simp [resolveAgentClass, h, hw]

theorem resolveAgentClass_none_iff (discovered : List String) (t : String) :
    resolveAgentClass discovered t = none ↔
      pyLower t ∉ discovered ∧ "writing" ∉ discovered := by
  by_cases h1 : pyLower t ∈ discovered
  · simp [resolveAgentClass, h1]
  · by_cases h2 : "writing" ∈ discovered
    · simp [resolveAgentClass, h1, h2]
    · simp [resolveAgentClass, h1, h2]

/-- C5 counterexample: the two calls use different (agent type,
stringified config) pairs, yet their concatenated cache keys coincide, so
the second call returns the very same cached instance — and leaves the
factory state untouched — instead of producing a second, independent
instance. -/
theorem agent_cache_key_collision_cex :
    (cexT1, cexC1) ≠ (cexT2, cexC2)
    ∧ configKey cexT1 cexC1 = configKey cexT2 cexC2
    ∧ AgentFactory.createAgent FactoryState.init ["writing"] cexT1 cexC1
        = Except.ok (⟨0, "writing"⟩,
            ⟨[(configKey cexT1 cexC1, ⟨0, "writing"⟩)], 1⟩)
    ∧ AgentFactory.createAgent
        ⟨[(configKey cexT1 cexC1, ⟨0, "writing"⟩)], 1⟩ ["writing"] cexT2 cexC2
        = Except.ok (⟨0, "writing"⟩,
            ⟨[(configKey cexT1 cexC1, ⟨0, "writing"⟩)], 1⟩) := by
  exact ⟨by decide, by decide, by rfl, by rfl⟩

/-- C5 amended: from a fresh factory, calls with identical cache key
strings return the identical instance; calls whose cache keys
(`agent_type + "_" + str(config)`, which can coincide for distinct pairs)
differ produce independent instances with distinct object identities; and
the first cache entry survives the second call — the cache never
invalidates. -/
theorem agent_cache_identity_amended (discovered : List String)
    (hw : "writing" ∈ discovered) (t1 c1 t2 c2 : String) :
    ∃ (i1 : AgentInstance) (st1 : FactoryState) (i2 : AgentInstance)
      (st2 : FactoryState),
      AgentFactory.createAgent FactoryState.init discovered t1 c1
          = Except.ok (i1, st1)
      ∧ AgentFactory.createAgent st1 discovered t2 c2 = Except.ok (i2, st2)
      ∧ (configKey t1 c1 = configKey t2 c2 → i2 = i1)
      ∧ (configKey t1 c1 ≠ configKey t2 c2 → i2.objId ≠ i1.objId)
      ∧ st2.instances.lookup (configKey t1 c1) = some i1 := by
  obtain ⟨cls1, hcls1⟩ :=
    Option.isSome_iff_exists.mp (resolveAgentClass_isSome discovered hw t1)
  have h1 : AgentFactory.createAgent FactoryState.init discovered t1 c1
      = Except.ok (⟨0, cls1⟩, ⟨[(configKey t1 c1, ⟨0, cls1⟩)], 1⟩) := by
    simp [AgentFactory.createAgent, FactoryState.init, hcls1, List.lookup]
  by_cases hk : configKey t1 c1 = configKey t2 c2
  · have h2 : AgentFactory.createAgent
        ⟨[(configKey t1 c1, ⟨0, cls1⟩)], 1⟩ discovered t2 c2
        = Except.ok (⟨0, cls1⟩, ⟨[(configKey t1 c1, ⟨0, cls1⟩)], 1⟩) := by
      simp [AgentFactory.createAgent, List.lookup, ← hk]
    refine ⟨⟨0, cls1⟩, _, ⟨0, cls1⟩, _, h1, h2, fun _ => rfl,
      fun hne => absurd hk hne, ?_⟩
    simp [List.lookup]
  · obtain ⟨cls2, hcls2⟩ :=
      Option.isSome_iff_exists.mp (resolveAgentClass_isSome discovered hw t2)
    have hbeq : (configKey t2 c2 == configKey t1 c1) = false :=
      beq_eq_false_iff_ne.mpr fun h => hk h.symm
    have h2 : AgentFactory.createAgent
        ⟨[(configKey t1 c1, ⟨0, cls1⟩)], 1⟩ discovered t2 c2
        = Except.ok (⟨1, cls2⟩,
            ⟨[(configKey t1 c1, ⟨0, cls1⟩), (configKey t2 c2, ⟨1, cls2⟩)], 2⟩) := by
      simp [AgentFactory.createAgent, List.lookup, hbeq, hcls2]
    refine ⟨⟨0, cls1⟩, _, ⟨1, cls2⟩, _, h1, h2, fun heq => absurd heq hk,
      fun _ => by simp, ?_⟩
    simp [List.lookup]

/-- C5 witness: the amended cache law at concrete types and configs. -/
theorem agent_cache_identity_amended_witness :
    ∃ (i1 : AgentInstance) (st1 : FactoryState) (i2 : AgentInstance)
      (st2 : FactoryState),
      AgentFactory.createAgent FactoryState.init ["writing"] "writing" "None"
          = Except.ok (i1, st1)
      ∧ AgentFactory.createAgent st1 ["writing"] "db" "None" = Except.ok (i2, st2)
      ∧ (configKey "writing" "None" = configKey "db" "None" → i2 = i1)
      ∧ (configKey "writing" "None" ≠ configKey "db" "None" → i2.objId ≠ i1.objId)
      ∧ st2.instances.lookup (configKey "writing" "None") = some i1 :=
  agent_cache_identity_amended ["writing"] (by decide) "writing" "None" "db" "None"

/-- C9: an unknown requested agent type does not fail creation — on a
cache miss it falls back to the `"writing"` class when that is discovered;
a cache hit returns the cached instance without consulting discovery; and
an error requires both the requested type and the `"writing"` default to
be undiscoverable. -/
theorem agent_type_fallback (st : FactoryState) (discovered : List String)
    (agentType configStr : String) :
    ((st.instances.lookup (configKey agentType configStr)).isNone = true →
      pyLower agentType ∉ discovered →
      "writing" ∈ discovered →
      ∃ (i : AgentInstance) (st' : FactoryState),
        AgentFactory.createAgent st discovered agentType configStr
            = Except.ok (i, st')
        ∧ i.cls = "writing")
    ∧ (∀ i : AgentInstance,
        st.instances.lookup (configKey agentType configStr) = some i →
          AgentFactory.createAgent st discovered agentType configStr
            = Except.ok (i, st))
    ∧ (exceptIsError (AgentFactory.createAgent st discovered agentType configStr)
          = true →
        pyLower agentType ∉ discovered ∧ "writing" ∉ discovered) := by
  refine ⟨?_, ?_, ?_⟩
  · intro hmiss hunk hwri
    rw [Option.isNone_iff_eq_none] at hmiss
    have hres := resolveAgentClass_unknown discovered agentType hunk hwri
    refine ⟨⟨st.nextObjId, "writing"⟩,
      ⟨st.instances
          ++ [(configKey agentType configStr, ⟨st.nextObjId, "writing"⟩)],
        st.nextObjId + 1⟩, ?_, rfl⟩
    simp [AgentFactory.createAgent, hmiss, hres]
  · intro i hhit
    simp [AgentFactory.createAgent, hhit]
  · intro herr
    cases hl : st.instances.lookup (configKey agentType configStr) with
    | some i => simp [AgentFactory.createAgent, hl, exceptIsError] at herr
    | none =>
      cases hres : resolveAgentClass discovered agentType with
      | some c => simp [AgentFactory.createAgent, hl, hres, exceptIsError] at herr
      | none => exact (resolveAgentClass_none_iff discovered agentType).mp hres

/-- C9 witness: creating the undiscovered type `"unknown"` on a fresh
factory with discovery `["db", "writing"]` succeeds with an instance of
the `"writing"` class. -/
theorem agent_type_fallback_witness :
    ∃ (i : AgentInstance) (st' : FactoryState),
      AgentFactory.createAgent FactoryState.init ["db", "writing"]
          "unknown" "None" = Except.ok (i, st')
      ∧ i.cls = "writing" :=
  (agent_type_fallback FactoryState.init ["db", "writing"] "unknown" "None").1
    (by decide) (by decide) (by decide)

/-- C6 counterexample: on a failing turn the sync shape returns its fixed
apology and the async-stream shape yields its own as the final fragment,
but the two strings are not identical — the `astream_chat` literal ends in
an ASCII period where the other three end in the ideographic full stop. -/
theorem writing_agent_error_string_cex :
    WritingAgent.chat none = WritingAgent.chatErrorReply
    ∧ WritingAgent.astreamChat [] true = [WritingAgent.astreamChatErrorReply]
    ∧ WritingAgent.chatErrorReply ≠ WritingAgent.astreamChatErrorReply := by
  exact ⟨rfl, rfl, by decide⟩

/-- C6 amended: every failing turn is converted into a fixed apology
string — returned by `chat`/`achat`, yielded as the final fragment by the
two streaming shapes — and the sync, async and sync-stream shapes share
one identical string, while the async-stream string is the same text
except that its final character is an ASCII period instead of the
ideographic full stop; no shape propagates the exception. -/
theorem writing_agent_error_strings_amended (fragments : List String) :
    WritingAgent.chat none = WritingAgent.chatErrorReply
    ∧ WritingAgent.achat none = WritingAgent.chatErrorReply
    ∧ WritingAgent.streamChat fragments true
        = fragments.filter (fun c => c != "") ++ [WritingAgent.chatErrorReply]
    ∧ WritingAgent.astreamChat fragments true
        = fragments.filter (fun c => c != "")
            ++ [WritingAgent.astreamChatErrorReply]
    ∧ WritingAgent.streamChatErrorReply = WritingAgent.chatErrorReply
    ∧ WritingAgent.achatErrorReply = WritingAgent.chatErrorReply
    ∧ WritingAgent.astreamChatErrorReply ≠ WritingAgent.chatErrorReply
    ∧ WritingAgent.astreamChatErrorReply.dropRight 1
        = WritingAgent.chatErrorReply.dropRight 1
    ∧ WritingAgent.chatErrorReply.data.getLast? = some '。'
    ∧ WritingAgent.astreamChatErrorReply.data.getLast? = some '.' := by
  exact ⟨rfl, rfl, rfl, rfl, rfl, rfl, by decide, by decide, by decide, by decide⟩

/-- C3 witness: a concrete cancelled stream persists nothing and a drained
one leaves other sessions untouched. -/
theorem base_agent_stream_turn_persistence_witness :
    (BaseAgent.stream ⟨"sys", false, fun _ => ""⟩ (fun _ => ["he", "llo"])
        initHistory "q" "sess" (StreamOutcome.cancelled 1)).1 = initHistory
    ∧ (BaseAgent.stream ⟨"sys", false, fun _ => ""⟩ (fun _ => ["he", "llo"])
        initHistory "q" "sess" StreamOutcome.drained).1 "other"
        = initHistory "other" := by
  have h := base_agent_stream_turn_persistence ⟨"sys", false, fun _ => ""⟩
    (fun _ => ["he", "llo"]) initHistory "q" "sess" 1
  exact ⟨h.1, h.2.2.1 "other" (by decide)⟩
